import Mathlib

/-!
# Verification of the Custom Energy Sources Card pipeline

Shallow embedding of the core data pipeline of the `ha-energy-sources`
repository (a Home Assistant Lovelace card).  The repository ships two
implementations of the card: version 1.0.0 (`custom-energy-sources-card.js`)
and version 1.3.0 (the unnamed source file).  Definitions suffixed `10`
embed the 1.0.0 code, definitions suffixed `13` embed the 1.3.0 code.

JavaScript numbers are modelled as exact rationals (`ℚ`); where the cost
path can produce `NaN`/`Infinity` (custom cost formulas), values are
modelled by `JsVal`, a rational extended with the three IEEE special
values relevant here.  JavaScript `x || 0` / `x || 'd'` falsiness is
modelled explicitly by the `jsOrQ` / `jsOrS` helpers.
-/

namespace EnergyCard

/-- JS `v?.x || 0` where a missing value or the (falsy) number `0`
both yield `0`. -/
def jsOrQ (v : Option ℚ) : ℚ :=
  match v with
  | some x => if x = 0 then 0 else x
  | none => 0

/-- JS `s || d` on an optional string: `undefined` and the empty string
are falsy and fall through to the default `d`. -/
def jsOrS (v : Option String) (d : String) : String :=
  match v with
  | some s => if s = "" then d else s
  | none => d

/-- One time-bucketed statistic sample as returned by
`recorder/statistics_during_period`: each field is optionally present
(`sum` cumulative, `change` per-bucket; 1.0.0 additionally reads a
`state` field). -/
structure Stat where
  sum : Option ℚ
  change : Option ℚ
  state : Option ℚ
  deriving Repr, DecidableEq

/-- Per-entity aggregation of the 1.3.0 `_processStatistics` loop body:
if the first and last sample both carry a numeric `sum`, the delta is
`last.sum - first.sum`; else if the first sample carries a numeric
`change`, the delta is the sum of `stat.change || 0` over all samples;
else `0`.  The empty sequence yields `0` (the code writes `{value: 0}`). -/
def statDelta13 (stats : List Stat) : ℚ :=
  match stats with
  | [] => 0
  | first :: rest =>
    let last := rest.getLastD first
    match first.sum, last.sum with
    | some a, some b => b - a
    | _, _ =>
      if first.change.isSome then
        (first :: rest).foldl (fun acc s => acc + jsOrQ s.change) 0
      else 0

/-- Per-entity aggregation of the 1.0.0 `_processStatistics` loop body:
same `sum`/`change` policy as 1.3.0 but with a third fallback, reading a
`state` field: `(last.state || 0) - (first.state || 0)`. -/
def statDelta10 (stats : List Stat) : ℚ :=
  match stats with
  | [] => 0
  | first :: rest =>
    let last := rest.getLastD first
    match first.sum, last.sum with
    | some a, some b => b - a
    | _, _ =>
      if first.change.isSome then
        (first :: rest).foldl (fun acc s => acc + jsOrQ s.change) 0
      else if first.state.isSome then
        jsOrQ last.state - jsOrQ first.state
      else 0

/-- 1.3.0 `_processStatistics` over the whole statistics response,
modelled as an association list from entity id to its sample sequence. -/
def processStatistics13 (statistics : List (String × List Stat)) :
    List (String × ℚ) :=
  statistics.map (fun p => (p.1, statDelta13 p.2))

/-! ## Configuration model and normalization -/

/-- The JS `calculate_from: { import, export }` object (the spec's
`derivation` pair `{importEntityId, exportEntityId}`); both entity ids
are taken to be present, as in every configuration the card documents. -/
structure CalcFrom where
  importId : String
  exportId : String
  deriving Repr, DecidableEq

/-- Net metering configuration object, passed through `setConfig`
unchanged (`net_metering: config.net_metering || null`). -/
structure NetMetering where
  import_entity : Option String
  export_entity : Option String
  rate_entity : Option String
  rate_static : Option ℚ
  label : Option String
  emoji : Option String
  unit : Option String
  deriving Repr, DecidableEq

/-- A raw (user-supplied, partial) source descriptor as consumed by
`_normalizeSource`.  `none` models an absent (JS `undefined`) field. -/
structure RawSource where
  type : Option String
  entity : Option String
  label : Option String
  emoji : Option String
  unit : Option String
  rate_entity : Option String
  rate_static : Option ℚ
  cost_formula : Option String
  invert_cost : Option Bool
  show_cost : Option Bool
  hide_if_zero : Option Bool
  calculate_from : Option CalcFrom
  deriving Repr, DecidableEq

/-- A raw source with every field absent, for building concrete inputs. -/
def blankRawSource : RawSource :=
  ⟨none, none, none, none, none, none, none, none, none, none, none, none⟩

/-- The `DEFAULT_LABELS` table from the source (identical in both versions). -/
def DEFAULT_LABELS : List (String × String) :=
  [("solar", "Solar Production"), ("battery_in", "Battery Charged"),
   ("battery_out", "Battery Used"), ("grid_import", "Grid Import"),
   ("grid_export", "Grid Export"), ("grid_net", "Grid Net"),
   ("gas", "Gas"), ("water", "Water"), ("default", "Energy")]

/-- The `DEFAULT_EMOJIS` table from the source (identical in both versions). -/
def DEFAULT_EMOJIS : List (String × String) :=
  [("solar", "☀️"), ("battery_in", "🔋"), ("battery_out", "🪫"),
   ("grid_import", "🏭"), ("grid_export", "💰"), ("grid_net", "⚡"),
   ("gas", "🔥"), ("water", "💧"), ("default", "📊")]

/-- The `DEFAULT_UNITS` table from the source (identical in both versions). -/
def DEFAULT_UNITS : List (String × String) :=
  [("solar", "kWh"), ("battery_in", "kWh"), ("battery_out", "kWh"),
   ("grid_import", "kWh"), ("grid_export", "kWh"), ("grid_net", "kWh"),
   ("gas", "m³"), ("water", "gal"), ("default", "kWh")]

/-- JS `TBL[type] || TBL.default`: a missing key (or, vacuously, an empty
entry) falls back to the table's `default` entry, whose literal value is
passed as `d`. -/
def tblGet (tbl : List (String × String)) (t : String) (d : String) : String :=
  jsOrS (tbl.lookup t) d

/-- A fully-normalized 1.3.0 source descriptor (output of `_normalizeSource`).
In 1.3.0 `entity`, `rate_entity` and `cost_formula` are normalized to
strings (`|| ''`), with `""` standing for "not configured". -/
structure Source where
  type : String
  entity : String
  label : String
  emoji : String
  unit : String
  rate_entity : String
  rate_static : Option ℚ
  cost_formula : String
  invert_cost : Bool
  show_cost : Bool
  hide_if_zero : Bool
  calculate_from : Option CalcFrom
  deriving Repr, DecidableEq

/-- A fully-normalized 1.0.0 source descriptor: 1.0.0 keeps `entity` as-is
and normalizes `rate_entity`/`cost_formula` to `null` (here `none`). -/
structure Source10 where
  type : String
  entity : Option String
  label : String
  emoji : String
  unit : String
  rate_entity : Option String
  rate_static : Option ℚ
  cost_formula : Option String
  invert_cost : Bool
  show_cost : Bool
  hide_if_zero : Bool
  calculate_from : Option CalcFrom
  deriving Repr, DecidableEq

/-- JS `x || null` on an optional string: `undefined` and `""` become
`null` (`none`), everything else is kept. -/
def jsOrNullS (v : Option String) : Option String :=
  match v with
  | some s => if s = "" then none else some s
  | none => none

/-- JS `x !== false` on an optional boolean (`show_cost: source.show_cost !== false`). -/
def jsNeFalse (v : Option Bool) : Bool :=
  match v with
  | some false => false
  | _ => true

/-- 1.3.0 `_normalizeSource`. -/
def normalizeSource13 (s : RawSource) : Source :=
  let type := jsOrS s.type "default"
  { type := type
    entity := jsOrS s.entity ""
    label := jsOrS s.label (tblGet DEFAULT_LABELS type "Energy")
    emoji := jsOrS s.emoji (tblGet DEFAULT_EMOJIS type "📊")
    unit := jsOrS s.unit (tblGet DEFAULT_UNITS type "kWh")
    rate_entity := jsOrS s.rate_entity ""
    rate_static := s.rate_static
    cost_formula := jsOrS s.cost_formula ""
    invert_cost := s.invert_cost.getD false
    show_cost := jsNeFalse s.show_cost
    hide_if_zero := s.hide_if_zero.getD false
    calculate_from := s.calculate_from }

/-- 1.0.0 `_normalizeSource`. -/
def normalizeSource10 (s : RawSource) : Source10 :=
  let type := jsOrS s.type "default"
  { type := type
    entity := s.entity
    label := jsOrS s.label (tblGet DEFAULT_LABELS type "Energy")
    emoji := jsOrS s.emoji (tblGet DEFAULT_EMOJIS type "📊")
    unit := jsOrS s.unit (tblGet DEFAULT_UNITS type "kWh")
    rate_entity := jsOrNullS s.rate_entity
    rate_static := s.rate_static
    cost_formula := jsOrNullS s.cost_formula
    invert_cost := s.invert_cost.getD false
    show_cost := jsNeFalse s.show_cost
    hide_if_zero := s.hide_if_zero.getD false
    calculate_from := s.calculate_from }

/-- The `config.sources.map(source => this._normalizeSource(source))` step
of the 1.3.0 `setConfig` (the spec's `normalize`). -/
def normalize13 (l : List RawSource) : List Source :=
  l.map normalizeSource13

/-- Raw card configuration object as consumed by `setConfig`.
`sources = none` models an absent (or non-array) `sources` key. -/
structure RawConfig where
  title : Option String
  show_header : Option Bool
  show_total : Option Bool
  currency : Option String
  decimal_places : Option ℕ
  cost_decimal_places : Option ℕ
  period : Option String
  sources : Option (List RawSource)
  net_metering : Option NetMetering
  deriving Repr, DecidableEq

/-- Normalized 1.3.0 card configuration (the card's `this._config`). -/
structure Config where
  title : String
  show_header : Bool
  show_total : Bool
  currency : String
  decimal_places : ℕ
  cost_decimal_places : ℕ
  sources : List Source
  net_metering : Option NetMetering
  deriving Repr, DecidableEq

/-- Normalized 1.0.0 card configuration.  Note: the 1.0.0 code builds this
object and then spreads `...config` last, so the raw `sources` array
overwrites the normalized one in the actual `this._config`; only the
accept/reject behaviour of `setConfig` is relied on by the claims. -/
structure Config10 where
  title : String
  show_header : Bool
  show_total : Bool
  currency : String
  decimal_places : ℕ
  cost_decimal_places : ℕ
  sources : List Source10
  net_metering : Option NetMetering
  deriving Repr, DecidableEq

/-- 1.3.0 `setConfig`: throws (`Except.error`) when `config.sources` is
absent, not an array, or empty; otherwise builds the normalized config.
A thrown `Error` is the spec's `ConfigurationError`. -/
def setConfig13 (c : RawConfig) : Except String Config :=
  match c.sources with
  | none => .error "Please add at least one energy source"
  | some srcs =>
    if srcs.length = 0 then .error "Please add at least one energy source"
    else
      .ok { title := jsOrS c.title "Energy Sources"
            show_header := jsNeFalse c.show_header
            show_total := jsNeFalse c.show_total
            currency := jsOrS c.currency "$"
            decimal_places := c.decimal_places.getD 2
            cost_decimal_places := c.cost_decimal_places.getD 2
            sources := normalize13 srcs
            net_metering := c.net_metering }

/-- 1.0.0 `setConfig`: throws only when `config.sources` is absent or not
an array — an empty array passes the `!config.sources || !Array.isArray`
guard, so the card is configured with zero sources. -/
def setConfig10 (c : RawConfig) : Except String Config10 :=
  match c.sources with
  | none => .error "You must define at least one energy source"
  | some srcs =>
    .ok { title := jsOrS c.title "Energy Sources"
          show_header := jsNeFalse c.show_header
          show_total := jsNeFalse c.show_total
          currency := jsOrS c.currency "$"
          decimal_places := c.decimal_places.getD 2
          cost_decimal_places := c.cost_decimal_places.getD 2
          sources := srcs.map normalizeSource10
          net_metering := c.net_metering }

/-- A raw configuration carrying only a `sources` value. -/
def rawConfigOfSources (s : Option (List RawSource)) : RawConfig :=
  ⟨none, none, none, none, none, none, none, s, none⟩

/-! ## Number parsing (JS `parseFloat`) and value resolution -/

/-- Numeric value of a decimal digit character. -/
def digitNat (c : Char) : ℕ := c.toNat - 48

/-- Value of a list of decimal digits, most significant first. -/
def natOfDigits (ds : List ℕ) : ℕ := ds.foldl (fun a d => 10 * a + d) 0

/-- Rational value of an integer digit list plus a fractional digit list. -/
def qOfParts (intDs fracDs : List ℕ) : ℚ :=
  (natOfDigits intDs : ℚ) + (natOfDigits fracDs : ℚ) / ((10 : ℚ) ^ fracDs.length)

/-- Character-level part of JS `parseFloat`: skip leading whitespace,
read an optional sign and the longest `digits[.digits]` prefix, ignoring
trailing characters.  Returns the sign and the integer/fraction digit
lists, or `none` when no digit was found (a `NaN` parse). -/
def parseFloatParts (s : String) : Option (Bool × List ℕ × List ℕ) :=
  let cs := s.data.dropWhile (fun c => c == ' ' || c == '\t' || c == '\n' || c == '\r')
  let signAndRest : Bool × List Char :=
    match cs with
    | '-' :: r => (true, r)
    | '+' :: r => (false, r)
    | _ => (false, cs)
  let intSplit := List.span Char.isDigit signAndRest.2
  let fracDs : List Char :=
    match intSplit.2 with
    | '.' :: r => (List.span Char.isDigit r).1
    | _ => []
  if intSplit.1.isEmpty && fracDs.isEmpty then none
  else some (signAndRest.1, intSplit.1.map digitNat, fracDs.map digitNat)

/-- JS `parseFloat` with `none` modelling a `NaN` result.  The exponent
and `Infinity` forms of the JS grammar are not modelled — no
configuration or claim in this development exercises them. -/
def parseFloatQ (s : String) : Option ℚ :=
  match parseFloatParts s with
  | none => none
  | some (neg, intDs, fracDs) =>
    some (if neg then -(qOfParts intDs fracDs) else qOfParts intDs fracDs)

/-- Map from entity id to its current state string (`hass.states`,
projected onto the `.state` field the card reads). -/
def States := List (String × String)

/-- `this._energyData`, mapping entity id to its aggregated value. -/
def EnergyData := List (String × ℚ)

/-- 1.3.0 `_getValue` (identical logic in 1.0.0): a derived source reads
`data[calculate_from.import]?.value || 0` minus the export analogue,
a plain source reads `data[source.entity]?.value || 0`. -/
def getValue13 (src : Source) (data : EnergyData) : ℚ :=
  match src.calculate_from with
  | some cf => jsOrQ (data.lookup cf.importId) - jsOrQ (data.lookup cf.exportId)
  | none => jsOrQ (data.lookup src.entity)

/-- 1.3.0 rate resolution inside `_calculateCost`: try the rate entity's
state via `parseFloat` (used only when the parse is not `NaN`), then fall
back to a numeric `rate_static`, then to `0`. -/
def resolveRate13 (src : Source) (states : States) : ℚ :=
  let fromEntity : Option ℚ :=
    if src.rate_entity ≠ "" then
      match List.lookup src.rate_entity states with
      | some st => parseFloatQ st
      | none => none
    else none
  match fromEntity with
  | some r => r
  | none =>
    match src.rate_static with
    | some r => r
    | none => 0

/-- 1.0.0 rate resolution inside `_calculateCost`: when the rate entity
exists in `hass.states` the rate is `parseFloat(state) || 0` — a
non-numeric state yields `0` and `rate_static` is *not* consulted;
`rate_static` is used only when the entity branch was not taken. -/
def resolveRate10 (src : Source10) (states : States) : ℚ :=
  match src.rate_entity with
  | some re =>
    match List.lookup re states with
    | some st => jsOrQ (parseFloatQ st)
    | none =>
      match src.rate_static with
      | some r => r
      | none => 0
  | none =>
    match src.rate_static with
    | some r => r
    | none => 0

/-! ## JS numbers with special values, and the cost-formula evaluator

The card evaluates user cost formulas by substituting the whole-word
occurrences of `value` and `rate` in the formula string (regexes
`\bvalue\b`, `\brate\b`) and handing the result to the JS engine via
`new Function('return ' + formula)()`.  The JS engine itself is not part
of this repository; following the spec's §4.4/§9 design note it is
modelled as an arithmetic-expression evaluator over numeric literals,
the substituted `value`/`rate` numbers, binary `+ - * /`, unary sign and
parentheses.  Substituting whole words and then evaluating is modelled
as evaluating with the identifier tokens `value`/`rate` bound to the
substituted numbers; any other identifier is an evaluation error (in JS,
a thrown `ReferenceError`, caught by the card's `try`/`catch`).
Division can produce the IEEE special values, so evaluation happens in
`JsVal`, a rational extended with `NaN` and the two infinities. -/

/-- A JS number: a finite rational or one of the special values. -/
inductive JsVal where
  | num (q : ℚ)
  | nan
  | inf
  | ninf
  deriving Repr, DecidableEq

/-- JS unary minus on numbers (`-NaN = NaN`). -/
def jneg : JsVal → JsVal
  | .num q => .num (-q)
  | .nan => .nan
  | .inf => .ninf
  | .ninf => .inf

/-- JS `+` on numbers (IEEE: `NaN` propagates, `∞ + (-∞) = NaN`). -/
def jadd : JsVal → JsVal → JsVal
  | .nan, _ => .nan
  | _, .nan => .nan
  | .num a, .num b => .num (a + b)
  | .inf, .ninf => .nan
  | .ninf, .inf => .nan
  | .inf, _ => .inf
  | _, .inf => .inf
  | .ninf, _ => .ninf
  | _, .ninf => .ninf

/-- JS `-` on numbers. -/
def jsub (a b : JsVal) : JsVal := jadd a (jneg b)

/-- JS `*` on numbers (IEEE: `NaN` propagates, `0 * ∞ = NaN`). -/
def jmul : JsVal → JsVal → JsVal
  | .nan, _ => .nan
  | _, .nan => .nan
  | .num a, .num b => .num (a * b)
  | .num a, .inf => if a = 0 then .nan else if 0 < a then .inf else .ninf
  | .num a, .ninf => if a = 0 then .nan else if 0 < a then .ninf else .inf
  | .inf, .num b => if b = 0 then .nan else if 0 < b then .inf else .ninf
  | .ninf, .num b => if b = 0 then .nan else if 0 < b then .ninf else .inf
  | .inf, .inf => .inf
  | .inf, .ninf => .ninf
  | .ninf, .inf => .ninf
  | .ninf, .ninf => .inf

/-- JS `/` on numbers (IEEE, ignoring negative zero: `0/0 = NaN`,
`x/0 = ±∞` by the sign of `x`, `x/±∞ = 0`, `±∞/±∞ = NaN`). -/
def jdiv : JsVal → JsVal → JsVal
  | .nan, _ => .nan
  | _, .nan => .nan
  | .num a, .num b =>
    if b = 0 then
      if a = 0 then .nan else if 0 < a then .inf else .ninf
    else .num (a / b)
  | .num _, .inf => .num 0
  | .num _, .ninf => .num 0
  | .inf, .num b => if 0 ≤ b then .inf else .ninf
  | .ninf, .num b => if 0 ≤ b then .ninf else .inf
  | .inf, .inf => .nan
  | .inf, .ninf => .nan
  | .ninf, .inf => .nan
  | .ninf, .ninf => .nan

/-- A token of the modelled formula grammar.  Numeric literals carry
their integer and fraction digit lists (converted to `ℚ` at evaluation
time) so that tokenizing is computable by the kernel. -/
inductive Tok where
  | numLit (intDs fracDs : List ℕ)
  | ident (s : String)
  | plus
  | minus
  | star
  | slash
  | lparen
  | rparen
  deriving Repr, DecidableEq

/-- Identifier characters of the JS grammar. -/
def isIdentChar (c : Char) : Bool := c.isAlpha || c.isDigit || c == '_' || c == '$'

/-- Characters that may start an identifier. -/
def isIdentStart (c : Char) : Bool := c.isAlpha || c == '_' || c == '$'

/-- Tokenizer for the modelled formula grammar.  `fuel` bounds the
recursion; each step consumes at least one character, so any fuel larger
than the input length is enough.  A character outside the grammar is a
tokenization error (rejected by the modelled evaluator, as the spec's
design note requires of the sandboxed grammar). -/
def tokenizeAux : ℕ → List Char → Except String (List Tok)
  | 0, _ => .error "out of fuel"
  | _, [] => .ok []
  | fuel + 1, c :: cs =>
    if c == ' ' || c == '\t' || c == '\n' || c == '\r' then
      tokenizeAux fuel cs
    else if c == '+' then (tokenizeAux fuel cs).map (fun ts => Tok.plus :: ts)
    else if c == '-' then (tokenizeAux fuel cs).map (fun ts => Tok.minus :: ts)
    else if c == '*' then (tokenizeAux fuel cs).map (fun ts => Tok.star :: ts)
    else if c == '/' then (tokenizeAux fuel cs).map (fun ts => Tok.slash :: ts)
    else if c == '(' then (tokenizeAux fuel cs).map (fun ts => Tok.lparen :: ts)
    else if c == ')' then (tokenizeAux fuel cs).map (fun ts => Tok.rparen :: ts)
    else if c.isDigit then
      let intSplit := List.span Char.isDigit (c :: cs)
      let fracSplit : List Char × List Char :=
        match intSplit.2 with
        | '.' :: r => List.span Char.isDigit r
        | r => ([], r)
      let rest : List Char :=
        match intSplit.2 with
        | '.' :: _ => fracSplit.2
        | r => r
      (tokenizeAux fuel rest).map
        (fun ts => Tok.numLit (intSplit.1.map digitNat) (fracSplit.1.map digitNat) :: ts)
    else if isIdentStart c then
      let identSplit := List.span isIdentChar (c :: cs)
      (tokenizeAux fuel identSplit.2).map (fun ts => Tok.ident (String.mk identSplit.1) :: ts)
    else .error "unexpected character"

instance {ε α : Type} [DecidableEq ε] [DecidableEq α] : DecidableEq (Except ε α) :=
  fun a b =>
    match a, b with
    | .error e, .error f =>
      if h : e = f then .isTrue (by rw [h])
      else .isFalse (fun hh => h (Except.error.inj hh))
    | .ok x, .ok y =>
      if h : x = y then .isTrue (by rw [h])
      else .isFalse (fun hh => h (Except.ok.inj hh))
    | .error _, .ok _ => .isFalse (fun hh => Except.noConfusion hh)
    | .ok _, .error _ => .isFalse (fun hh => Except.noConfusion hh)

/-- Tokenize a formula string. -/
def tokenizeF (s : String) : Except String (List Tok) :=
  tokenizeAux (s.length + 1) s.data

/-- Abstract syntax of the modelled arithmetic-formula grammar, with the
two substituted variables as leaves.  Numeric literals keep their digit
lists so that parsing stays kernel-computable. -/
inductive JExpr where
  | lit (intDs fracDs : List ℕ)
  | value
  | rate
  | neg (e : JExpr)
  | add (a b : JExpr)
  | sub (a b : JExpr)
  | mul (a b : JExpr)
  | div (a b : JExpr)
  deriving Repr, DecidableEq

mutual

/-- Parse an atom: numeric literal, `value`/`rate`, unary sign, or a
parenthesized expression.  Any other identifier is a parse error (in JS
the evaluation would throw a `ReferenceError`; either way the card's
`try`/`catch` observes a failure). -/
def parseAtomF : ℕ → List Tok → Except String (JExpr × List Tok)
  | 0, _ => .error "out of fuel"
  | fuel + 1, ts =>
    match ts with
    | .numLit intDs fracDs :: rest => .ok (.lit intDs fracDs, rest)
    | .ident s :: rest =>
      if s = "value" then .ok (.value, rest)
      else if s = "rate" then .ok (.rate, rest)
      else .error "unknown identifier"
    | .minus :: rest => do
      let (x, rest') ← parseAtomF fuel rest
      .ok (.neg x, rest')
    | .plus :: rest => parseAtomF fuel rest
    | .lparen :: rest => do
      let (x, rest') ← parseAddF fuel rest
      match rest' with
      | .rparen :: rest'' => .ok (x, rest'')
      | _ => .error "expected closing parenthesis"
    | _ => .error "unexpected token"

/-- Parse a `*`/`/` chain. -/
def parseMulF : ℕ → List Tok → Except String (JExpr × List Tok)
  | 0, _ => .error "out of fuel"
  | fuel + 1, ts => do
    let (x, rest) ← parseAtomF fuel ts
    parseMulLoopF fuel x rest

/-- Fold further `* atom` / `/ atom` factors into the accumulator. -/
def parseMulLoopF : ℕ → JExpr → List Tok → Except String (JExpr × List Tok)
  | 0, _, _ => .error "out of fuel"
  | fuel + 1, x, ts =>
    match ts with
    | .star :: rest => do
      let (y, rest') ← parseAtomF fuel rest
      parseMulLoopF fuel (.mul x y) rest'
    | .slash :: rest => do
      let (y, rest') ← parseAtomF fuel rest
      parseMulLoopF fuel (.div x y) rest'
    | _ => .ok (x, ts)

/-- Parse a `+`/`-` chain. -/
def parseAddF : ℕ → List Tok → Except String (JExpr × List Tok)
  | 0, _ => .error "out of fuel"
  | fuel + 1, ts => do
    let (x, rest) ← parseMulF fuel ts
    parseAddLoopF fuel x rest

/-- Fold further `+ term` / `- term` summands into the accumulator. -/
def parseAddLoopF : ℕ → JExpr → List Tok → Except String (JExpr × List Tok)
  | 0, _, _ => .error "out of fuel"
  | fuel + 1, x, ts =>
    match ts with
    | .plus :: rest => do
      let (y, rest') ← parseMulF fuel rest
      parseAddLoopF fuel (.add x y) rest'
    | .minus :: rest => do
      let (y, rest') ← parseMulF fuel rest
      parseAddLoopF fuel (.sub x y) rest'
    | _ => .ok (x, ts)

end

/-- Parse a formula string into an expression: tokenize, parse one
additive expression, and require all tokens to be consumed.  The fuel
`4 * (length + 1)` exceeds the recursion depth any token list can
need. -/
def parseFormula (f : String) : Except String JExpr := do
  let ts ← tokenizeF f
  let (x, rest) ← parseAddF (4 * (ts.length + 1)) ts
  match rest with
  | [] => .ok x
  | _ => .error "unexpected trailing tokens"

/-- Evaluate a parsed formula with `value` and `rate` bound to the given
numbers, in JS-number arithmetic. -/
def evalExpr (v r : ℚ) : JExpr → JsVal
  | .lit intDs fracDs => .num (qOfParts intDs fracDs)
  | .value => .num v
  | .rate => .num r
  | .neg e => jneg (evalExpr v r e)
  | .add a b => jadd (evalExpr v r a) (evalExpr v r b)
  | .sub a b => jsub (evalExpr v r a) (evalExpr v r b)
  | .mul a b => jmul (evalExpr v r a) (evalExpr v r b)
  | .div a b => jdiv (evalExpr v r a) (evalExpr v r b)

/-- Evaluate a cost formula with `value` and `rate` bound to the given
numbers: failures (tokenization, parsing, unknown identifiers) are the
JS engine's thrown exceptions, caught by `_calculateCost`. -/
def evalFormula (f : String) (v r : ℚ) : Except String JsVal :=
  match parseFormula f with
  | .error e => .error e
  | .ok e => .ok (evalExpr v r e)

/-! ## Cost evaluation -/

/-- JS truthiness of an optional number (`!x`): `undefined`, `null` and
`0` are falsy. -/
def jsFalsyQ (v : Option ℚ) : Bool :=
  match v with
  | none => true
  | some q => decide (q = 0)

/-- 1.3.0 `_calculateCost`: `null` (here `none`) when `show_cost` is
false or the formula evaluation throws; otherwise the computed number.
The rate is resolved by `resolveRate13`; a non-empty `cost_formula`
replaces the standard `value * rate` computation; `invert_cost` negates
the result. -/
def calculateCost13 (src : Source) (value : ℚ) (states : States) : Option JsVal :=
  if src.show_cost = false then none
  else
    let rate := resolveRate13 src states
    if src.cost_formula ≠ "" then
      match evalFormula src.cost_formula value rate with
      | .ok res => some (if src.invert_cost then jneg res else res)
      | .error _ => none
    else
      let cost := value * rate
      some (.num (if src.invert_cost then -cost else cost))

/-- 1.0.0 `_calculateCost`: as 1.3.0 but with the early return
`if (value === 0 && !source.rate_static && !source.rate_entity) return 0`
and the 1.0.0 rate resolution (`resolveRate10`). -/
def calculateCost10 (src : Source10) (value : ℚ) (states : States) : Option JsVal :=
  if src.show_cost = false then none
  else if value = 0 ∧ jsFalsyQ src.rate_static ∧ src.rate_entity = none then
    some (.num 0)
  else
    let rate := resolveRate10 src states
    match src.cost_formula with
    | some f =>
      match evalFormula f value rate with
      | .ok res => some (if src.invert_cost then jneg res else res)
      | .error _ => none
    | none =>
      let cost := value * rate
      some (.num (if src.invert_cost then -cost else cost))

/-! ## Formatting and row building (1.3.0 `render`) -/

/-- Fixed-point decimal rendering of a rational, used for
`toLocaleString(undefined, {minimumFractionDigits: d, maximumFractionDigits: d})`.
The host's locale-dependent digit grouping is not modelled (no claim
inspects a formatted numeral); ties round half-up on the magnitude. -/
def fmtFixed (q : ℚ) (d : ℕ) : String :=
  let a : ℚ := if q < 0 then -q else q
  let n : ℤ := ⌊a * (10 : ℚ) ^ d + 1 / 2⌋
  let np : ℕ := n.toNat
  let ip : ℕ := np / 10 ^ d
  let fp : ℕ := np % 10 ^ d
  let fpStr := toString fp
  let fpPad := String.mk (List.replicate (d - fpStr.length) '0') ++ fpStr
  let base := if d = 0 then toString ip else toString ip ++ "." ++ fpPad
  if q < 0 then "-" ++ base else base

/-- 1.3.0 `_formatCost`: the empty string for `null` and for a
non-number/`NaN` cost; otherwise the currency symbol (`config.currency
|| '$'`), prefixed with a minus sign for negative costs, followed by the
formatted absolute value (`toLocaleString(±Infinity)` renders `"∞"`). -/
def formatCost13 (currency : String) (cost : Option JsVal) (d : ℕ) : String :=
  let cur := if currency = "" then "$" else currency
  match cost with
  | none => ""
  | some .nan => ""
  | some (.num q) =>
    if q < 0 then "-" ++ cur ++ fmtFixed (-q) d else cur ++ fmtFixed q d
  | some .inf => cur ++ "∞"
  | some .ninf => "-" ++ cur ++ "∞"

/-- JS `x < 0` on a number (`NaN < 0` and `∞ < 0` are false). -/
def jlt0 : JsVal → Bool
  | .num q => decide (q < 0)
  | .ninf => true
  | _ => false

/-- One display row assembled by 1.3.0 `render`. -/
structure Row where
  emoji : String
  label : String
  valueStr : String
  unit : String
  cost : Option JsVal
  costFormatted : String
  rateWarning : Option String
  isNegative : Bool
  isCostCredit : Bool
  deriving Repr, DecidableEq

/-- The 1.3.0 rate warning attached to a row: when cost display is on
and a rate entity is configured, a missing entity or a non-numeric state
produces a visible warning string. -/
def rateWarning13 (src : Source) (states : States) : Option String :=
  if src.show_cost = true ∧ src.rate_entity ≠ "" then
    match List.lookup src.rate_entity states with
    | none => some "Entity not found"
    | some st => if (parseFloatQ st).isNone then some ("Invalid: " ++ st) else none
  else none

/-- Accumulator of the 1.3.0 `render` row loop: the rows built so far,
the running `totalCost`, and the `hasAnyCost` flag. -/
structure RowsAcc where
  rows : List Row
  total : JsVal
  hasAnyCost : Bool
  deriving Repr, DecidableEq

/-- The display row the 1.3.0 `render` loop builds for one descriptor. -/
def rowOf13 (dp cdp : ℕ) (currency : String) (data : EnergyData) (states : States)
    (src : Source) : Row :=
  let value := getValue13 src data
  let cost := calculateCost13 src value states
  { emoji := if src.emoji = "" then "📊" else src.emoji
    label := if src.label = "" then "Energy" else src.label
    valueStr := fmtFixed value dp
    unit := if src.unit = "" then "kWh" else src.unit
    cost := cost
    costFormatted := formatCost13 currency cost cdp
    rateWarning := rateWarning13 src states
    isNegative := decide (value < 0)
    isCostCredit := match cost with | some c => jlt0 c | none => false }

/-- One iteration of the 1.3.0 `render` row loop (`sources.map` with the
running total, followed by `.filter(Boolean)`): a descriptor with
`hide_if_zero` and value exactly `0` contributes nothing; otherwise a
row is appended and a non-`null`, non-`NaN` cost is added to the total
and sets `hasAnyCost`. -/
def rowStep13 (dp cdp : ℕ) (currency : String) (data : EnergyData) (states : States)
    (acc : RowsAcc) (src : Source) : RowsAcc :=
  let value := getValue13 src data
  if src.hide_if_zero = true ∧ value = 0 then acc
  else
    let cost := calculateCost13 src value states
    let total :=
      match cost with
      | some c => if c = JsVal.nan then acc.total else jadd acc.total c
      | none => acc.total
    let hasAny :=
      match cost with
      | some c => if c = JsVal.nan then acc.hasAnyCost else true
      | none => acc.hasAnyCost
    { rows := acc.rows ++ [rowOf13 dp cdp currency data states src],
      total := total, hasAnyCost := hasAny }

/-- The rate used by the 1.3.0 net-metering block:
`parseFloat(state) || 0` when the rate entity is set and present, else a
numeric `rate_static`, else `0`. -/
def netRate13 (nm : NetMetering) (states : States) : ℚ :=
  match jsOrNullS nm.rate_entity with
  | some re =>
    match List.lookup re states with
    | some st => jsOrQ (parseFloatQ st)
    | none =>
      match nm.rate_static with
      | some r => r
      | none => 0
  | none =>
    match nm.rate_static with
    | some r => r
    | none => 0

/-- Result of the pure row-building part of 1.3.0 `render`: ordinary
rows, the optional net-metering row, the cost total and the
`hasAnyCost` flag (the spec's `totalApplicable`). -/
structure BuildResult where
  rows : List Row
  netRow : Option Row
  total : JsVal
  hasAnyCost : Bool
  deriving Repr, DecidableEq

/-- The pure row-building part of 1.3.0 `render` (the spec's
`buildRows`): fold the row loop over the sources in configured order,
then, when net metering is configured, append its row and add its cost
(unconditionally) to the total. -/
def buildRows13 (cfg : Config) (data : EnergyData) (states : States) : BuildResult :=
  let acc := cfg.sources.foldl
    (rowStep13 cfg.decimal_places cfg.cost_decimal_places cfg.currency data states)
    ⟨[], .num 0, false⟩
  match cfg.net_metering with
  | none => ⟨acc.rows, none, acc.total, acc.hasAnyCost⟩
  | some nm =>
    let importVal := jsOrQ (match nm.import_entity with
      | some k => List.lookup k data
      | none => none)
    let exportVal := jsOrQ (match nm.export_entity with
      | some k => List.lookup k data
      | none => none)
    let netValue := importVal - exportVal
    let rate := netRate13 nm states
    let cost := netValue * rate
    let row : Row :=
      { emoji := jsOrS nm.emoji "⚡"
        label := jsOrS nm.label "Grid Net (Metered)"
        valueStr := fmtFixed netValue cfg.decimal_places
        unit := jsOrS nm.unit "kWh"
        cost := some (.num cost)
        costFormatted := formatCost13 cfg.currency (some (.num cost)) cfg.cost_decimal_places
        rateWarning := none
        isNegative := decide (netValue < 0)
        isCostCredit := decide (cost < 0) }
    ⟨acc.rows, some row, jadd acc.total (.num cost), true⟩

/-! ## Concrete instances used by witnesses and counterexamples -/

/-- Concrete 1.0.0 source for the C2 counterexample: a configured rate
entity plus a numeric static rate `0.5`. -/
def srcC2 : Source10 :=
  normalizeSource10 { blankRawSource with
    rate_entity := some "sensor.rate", rate_static := some (1/2) }

/-- Concrete 1.3.0 source with the spec's example cost formula and a
static rate `0.2`. -/
def srcC7 : Source :=
  normalizeSource13 { blankRawSource with
    cost_formula := some "value * rate + 5", rate_static := some (1/5) }

/-- Concrete 1.3.0 source with a malformed cost formula. -/
def srcC7bad : Source :=
  normalizeSource13 { blankRawSource with cost_formula := some "value * + " }

/-- Concrete 1.3.0 source with `hide_if_zero` set. -/
def srcC9 : Source := normalizeSource13 { blankRawSource with hide_if_zero := some true }

/-- Configuration holding only `srcC9`, with all card defaults. -/
def cfgC9 : Config :=
  { title := "Energy Sources", show_header := true, show_total := true, currency := "$",
    decimal_places := 2, cost_decimal_places := 2, sources := [srcC9], net_metering := none }

/-- Concrete 1.3.0 source whose formula evaluates to `NaN` (`0/0`). -/
def srcC10 : Source :=
  normalizeSource13 { blankRawSource with cost_formula := some "0/0" }

/-- Configuration holding only `srcC10`, with all card defaults. -/
def cfgC10 : Config :=
  { title := "Energy Sources", show_header := true, show_total := true, currency := "$",
    decimal_places := 2, cost_decimal_places := 2, sources := [srcC10], net_metering := none }

/-! ## Helper lemmas -/

theorem jsOrQ_eq_getD (v : Option ℚ) : jsOrQ v = v.getD 0 := by
  cases v with
  | none => rfl
  | some x =>
    by_cases h : x = 0 <;> simp [jsOrQ, h]


theorem jsOrS_ne (v : Option String) (d : String) (hd : d ≠ "") : jsOrS v d ≠ "" := by
  cases v with
  | none => simpa [jsOrS] using hd
  | some s => by_cases h : s = "" <;> simp [jsOrS, h, hd]

theorem jsOrS_some_ne (s d : String) (h : s ≠ "") : jsOrS (some s) d = s := by
  simp [jsOrS, h]

theorem jsOrS_dflt (v : Option String) (d : String) (h : v = none ∨ v = some "") :
    jsOrS v d = d := by
  rcases h with h | h <;> simp [jsOrS, h]

/-! ## Claim theorems -/

/-- Claim C4: for every sample sequence whose first and last samples both
expose a cumulative-sum field, the aggregation returns
`last.sum - first.sum`, ignoring all intermediate samples — in both the
1.3.0 and the 1.0.0 implementation (the universally quantified `rest`
constrains only the last sample's `sum`, so intermediate samples are
irrelevant by construction). -/
theorem claim_C4_sum_pair (first : Stat) (rest : List Stat) (a b : ℚ)
    (h1 : first.sum = some a) (h2 : (rest.getLastD first).sum = some b) :
    statDelta13 (first :: rest) = b - a ∧ statDelta10 (first :: rest) = b - a := by
  rw [List.getLastD_eq_getLast?] at h2
  constructor <;> simp [statDelta13, statDelta10, h1, h2]

/-- Witness for C4 at the spec's example `[{sum:10},{sum:10},{sum:25}]`,
which aggregates to `15` in both versions. -/
theorem claim_C4_sum_pair_witness :
    statDelta13 [⟨some 10, none, none⟩, ⟨some 10, none, none⟩, ⟨some 25, none, none⟩] = 15 ∧
    statDelta10 [⟨some 10, none, none⟩, ⟨some 10, none, none⟩, ⟨some 25, none, none⟩] = 15 := by
  have h := claim_C4_sum_pair ⟨some 10, none, none⟩
    [⟨some 10, none, none⟩, ⟨some 25, none, none⟩] 10 25 rfl (by simp [List.getLastD])
  norm_num at h
  exact h

/-- Claim C3 (amended to the 1.3.0 implementation): for a non-empty
sample sequence whose first and last samples do not both expose `sum`,
the 1.3.0 aggregation returns the sum of all per-period `change` values
when that field is exposed, and `0` when neither `sum` nor `change` is
exposed on any sample (for example samples carrying only a `state`
field); the empty sequence yields `0`, not an error. -/
theorem claim_C3_change_fallback (first : Stat) (rest : List Stat)
    (hsum : ¬(first.sum.isSome ∧ ((rest.getLastD first).sum).isSome)) :
    ((∀ s ∈ first :: rest, s.change.isSome) →
      statDelta13 (first :: rest) =
        (first :: rest).foldl (fun acc s => acc + s.change.getD 0) 0) ∧
    ((∀ s ∈ first :: rest, s.sum = none ∧ s.change = none) →
      statDelta13 (first :: rest) = 0) ∧
    statDelta13 [] = 0 := by
  refine ⟨fun hch => ?_, fun hnone => ?_, rfl⟩
  · have hfc : first.change.isSome := hch first (List.mem_cons_self _ _)
    rcases hfs : first.sum with _ | a
    · simp [statDelta13, hfs, hfc, jsOrQ_eq_getD]
    · rcases hls : (rest.getLastD first).sum with _ | b
      · rw [List.getLastD_eq_getLast?] at hls
        simp [statDelta13, hfs, hls, hfc, jsOrQ_eq_getD]
      · exact absurd ⟨by simp only [hfs]; rfl, by simp only [hls]; rfl⟩ hsum
  · have hfs : first.sum = none := (hnone first (List.mem_cons_self _ _)).1
    have hfc : first.change = none := (hnone first (List.mem_cons_self _ _)).2
    simp [statDelta13, hfs, hfc]

/-- Witness for C3 at the spec's example `[{change:2},{change:3},{change:-1}]`
(sums to `4`) and at state-only samples (yielding `0` in 1.3.0). -/
theorem claim_C3_change_fallback_witness :
    statDelta13 [⟨none, some 2, none⟩, ⟨none, some 3, none⟩, ⟨none, some (-1), none⟩] = 4 ∧
    statDelta13 [⟨none, none, some 3⟩, ⟨none, none, some 7⟩] = 0 := by
  constructor
  · have h := (claim_C3_change_fallback ⟨none, some 2, none⟩
      [⟨none, some 3, none⟩, ⟨none, some (-1), none⟩] (by simp [List.getLastD])).1
      (by intro s hs; fin_cases hs <;> simp)
    rw [h]
    norm_num
  · have h := (claim_C3_change_fallback ⟨none, none, some 3⟩
      [⟨none, none, some 7⟩] (by simp [List.getLastD])).2.1
      (by intro s hs; fin_cases hs <;> simp)
    exact h

/-- Counterexample for C3 as stated: the claim covers the cited 1.0.0
`_processStatistics` as well, but 1.0.0 aggregates samples carrying only
a `state` field to `last.state - first.state` — here `4`, not `0`. -/
theorem claim_C3_counterexample :
    statDelta10 [⟨none, none, some 3⟩, ⟨none, none, some 7⟩] = 4 ∧ (4 : ℚ) ≠ 0 := by
  constructor
  · norm_num [statDelta10, jsOrQ]
  · norm_num

/-- Claim C6: for every descriptor and entity-value map, the value
resolver returns `entityValues[importEntityId] - entityValues[exportEntityId]`
when a derivation (`calculate_from`) is set, and `entityValues[entityId]`
otherwise, each lookup defaulting to `0` when the key is absent — never
an error.  (The 1.0.0 `_getValue` is line-for-line the same logic.) -/
theorem claim_C6_value_resolution (src : Source) (data : EnergyData) :
    (∀ cf, src.calculate_from = some cf →
      getValue13 src data =
        (List.lookup cf.importId data).getD 0 - (List.lookup cf.exportId data).getD 0) ∧
    (src.calculate_from = none →
      getValue13 src data = (List.lookup src.entity data).getD 0) := by
  constructor
  · intro cf hcf
    simp [getValue13, hcf, jsOrQ_eq_getD]
  · intro h
    simp [getValue13, h, jsOrQ_eq_getD]

/-- Witness for C6: a derived source over import `100` and export `30`
resolves to `70`; a plain source over an absent entity resolves to `0`. -/
theorem claim_C6_value_resolution_witness :
    getValue13 (normalizeSource13 { blankRawSource with calculate_from := some ⟨"imp", "exp"⟩ })
      [("imp", 100), ("exp", 30)] = 70 ∧
    getValue13 (normalizeSource13 { blankRawSource with entity := some "solar" }) [] = 0 := by
  constructor
  · have h := (claim_C6_value_resolution
      (normalizeSource13 { blankRawSource with calculate_from := some ⟨"imp", "exp"⟩ })
      [("imp", 100), ("exp", 30)]).1 ⟨"imp", "exp"⟩ rfl
    rw [h]
    norm_num [List.lookup, show ("exp" == "imp") = false from by decide]
  · have h := (claim_C6_value_resolution
      (normalizeSource13 { blankRawSource with entity := some "solar" }) []).2 rfl
    rw [h]
    simp [List.lookup]

/-- Claim C5: for every input list, normalization produces exactly one
descriptor per input element, preserving input order (element `i` of the
output is the normalization of element `i` of the input), and every
produced descriptor has non-empty `label`, `emoji` and `unit`: an absent
or empty field is filled from the kind-keyed default table (resolved
through the `type || 'default'` key) and an explicitly supplied
non-empty value is kept unchanged. -/
theorem claim_C5_normalize (l : List RawSource) :
    (normalize13 l).length = l.length ∧
    (∀ (i : ℕ) (s : RawSource), l[i]? = some s →
      (normalize13 l)[i]? = some (normalizeSource13 s) ∧
      (normalizeSource13 s).label ≠ "" ∧
      (normalizeSource13 s).emoji ≠ "" ∧
      (normalizeSource13 s).unit ≠ "" ∧
      (∀ v, s.label = some v → v ≠ "" → (normalizeSource13 s).label = v) ∧
      (∀ v, s.emoji = some v → v ≠ "" → (normalizeSource13 s).emoji = v) ∧
      (∀ v, s.unit = some v → v ≠ "" → (normalizeSource13 s).unit = v) ∧
      ((s.label = none ∨ s.label = some "") →
        (normalizeSource13 s).label = tblGet DEFAULT_LABELS (jsOrS s.type "default") "Energy") ∧
      ((s.emoji = none ∨ s.emoji = some "") →
        (normalizeSource13 s).emoji = tblGet DEFAULT_EMOJIS (jsOrS s.type "default") "📊") ∧
      ((s.unit = none ∨ s.unit = some "") →
        (normalizeSource13 s).unit = tblGet DEFAULT_UNITS (jsOrS s.type "default") "kWh")) := by
  refine ⟨by simp [normalize13], fun i s hi => ?_⟩
  refine ⟨by simp [normalize13, List.getElem?_map, hi], ?_, ?_, ?_, ?_, ?_, ?_, ?_, ?_, ?_⟩
  · exact jsOrS_ne _ _ (jsOrS_ne _ _ (by decide))
  · exact jsOrS_ne _ _ (jsOrS_ne _ _ (by decide))
  · exact jsOrS_ne _ _ (jsOrS_ne _ _ (by decide))
  · intro v hv hne
    simp only [normalizeSource13]
    rw [hv, jsOrS_some_ne _ _ hne]
  · intro v hv hne
    simp only [normalizeSource13]
    rw [hv, jsOrS_some_ne _ _ hne]
  · intro v hv hne
    simp only [normalizeSource13]
    rw [hv, jsOrS_some_ne _ _ hne]
  · intro hv
    simp only [normalizeSource13]
    rw [jsOrS_dflt _ _ hv]
  · intro hv
    simp only [normalizeSource13]
    rw [jsOrS_dflt _ _ hv]
  · intro hv
    simp only [normalizeSource13]
    rw [jsOrS_dflt _ _ hv]

/-- Witness for C5: a two-element list with an explicit label on the
first source and a blank gas source; order and count are preserved, the
explicit label is kept, the defaults fill the rest. -/
theorem claim_C5_normalize_witness :
    (normalize13 [{ blankRawSource with type := some "solar", label := some "My Solar" },
                  { blankRawSource with type := some "gas" }]).length = 2 ∧
    (normalizeSource13 { blankRawSource with type := some "solar", label := some "My Solar" }).label
      = "My Solar" ∧
    (normalizeSource13 { blankRawSource with type := some "gas" }).label = "Gas" ∧
    (normalizeSource13 { blankRawSource with type := some "gas" }).unit = "m³" ∧
    (normalizeSource13 { blankRawSource with type := some "gas" }).emoji ≠ "" := by
  have h0 := claim_C5_normalize
    [{ blankRawSource with type := some "solar", label := some "My Solar" },
     { blankRawSource with type := some "gas" }]
  have h1 := h0.2 0 { blankRawSource with type := some "solar", label := some "My Solar" } rfl
  have h2 := h0.2 1 { blankRawSource with type := some "gas" } rfl
  refine ⟨h0.1, ?_, ?_, ?_, h2.2.2.1⟩
  · exact h1.2.2.2.2.1 "My Solar" rfl (by decide)
  · rw [h2.2.2.2.2.2.2.2.1 (Or.inl rfl)]
    decide
  · rw [h2.2.2.2.2.2.2.2.2.2 (Or.inl rfl)]
    decide

/-- Claim C1 (the claim is correct; the 1.0.0 code has the bug): in the
1.3.0 implementation `setConfig` rejects a configuration whose source
list is absent or empty with a thrown configuration error before any
normalization work; but the cited 1.0.0 implementation accepts the
explicit empty list `sources: []` (its guard checks only
absent/non-array), contradicting its own error message "You must define
at least one energy source". -/
theorem claim_C1_empty_sources (cfg : RawConfig)
    (h : cfg.sources = none ∨ cfg.sources = some []) :
    setConfig13 cfg = .error "Please add at least one energy source" ∧
    (setConfig10 (rawConfigOfSources (some []))).isOk = true := by
  constructor
  · rcases h with h | h <;> simp [setConfig13, h]
  · decide

/-- Witness for C1 at `normalize([])` and `normalize(undefined)`: both
shapes are rejected by the 1.3.0 `setConfig`. -/
theorem claim_C1_empty_sources_witness :
    setConfig13 (rawConfigOfSources (some [])) = .error "Please add at least one energy source" ∧
    setConfig13 (rawConfigOfSources none) = .error "Please add at least one energy source" := by
  exact ⟨(claim_C1_empty_sources (rawConfigOfSources (some [])) (Or.inr rfl)).1,
         (claim_C1_empty_sources (rawConfigOfSources none) (Or.inl rfl)).1⟩

/-- Claim C8: the cost evaluator returns "not applicable" (`none`,
JS `null`) whenever `show_cost` is false; and with cost display on and
no formula, the cost is the quantity times the resolved rate, negated
when `invert_cost` is set — in both implementations (in 1.0.0 the early
`return 0` fires only when the value is `0` and no rate is configured,
where `value * rate = 0` as well). -/
theorem claim_C8_standard_cost (value : ℚ) (states : States) :
    (∀ src : Source, src.show_cost = false → calculateCost13 src value states = none) ∧
    (∀ src : Source, src.show_cost = true → src.cost_formula = "" →
      calculateCost13 src value states =
        some (.num (if src.invert_cost then -(value * resolveRate13 src states)
                    else value * resolveRate13 src states))) ∧
    (∀ src : Source10, src.show_cost = false → calculateCost10 src value states = none) ∧
    (∀ src : Source10, src.show_cost = true → src.cost_formula = none →
      calculateCost10 src value states =
        some (.num (if src.invert_cost then -(value * resolveRate10 src states)
                    else value * resolveRate10 src states))) := by
  refine ⟨fun src h => by simp [calculateCost13, h],
          fun src h hf => by simp [calculateCost13, h, hf],
          fun src h => by simp [calculateCost10, h],
          fun src h hf => ?_⟩
  by_cases hz : value = 0 ∧ jsFalsyQ src.rate_static = true ∧ src.rate_entity = none
  · have hr : resolveRate10 src states = 0 ∨ value = 0 := Or.inr hz.1
    rcases hz with ⟨hv, hfs, hre⟩
    have : resolveRate10 src states = 0 := by
      rcases hrs : src.rate_static with _ | q
      · simp [resolveRate10, hre, hrs]
      · have : q = 0 := by simpa [jsFalsyQ, hrs] using hfs
        simp [resolveRate10, hre, hrs, this]
    simp [calculateCost10, h, hf, hv, hfs, hre, this]
  · simp [calculateCost10, h, hf, hz]

/-- Witness for C8: quantity `10` at static rate `0.20` costs `2.0`
without inversion and `-2.0` with inversion, in both implementations. -/
theorem claim_C8_standard_cost_witness :
    calculateCost13 (normalizeSource13 { blankRawSource with rate_static := some (1/5) }) 10 []
      = some (.num 2) ∧
    calculateCost13 (normalizeSource13
        { blankRawSource with rate_static := some (1/5), invert_cost := some true }) 10 []
      = some (.num (-2)) ∧
    calculateCost10 (normalizeSource10 { blankRawSource with rate_static := some (1/5) }) 10 []
      = some (.num 2) ∧
    calculateCost10 (normalizeSource10
        { blankRawSource with rate_static := some (1/5), invert_cost := some true }) 10 []
      = some (.num (-2)) := by
  have h := claim_C8_standard_cost 10 []
  refine ⟨?_, ?_, ?_, ?_⟩
  · have := h.2.1 (normalizeSource13 { blankRawSource with rate_static := some (1/5) }) rfl rfl
    rw [this]
    norm_num [normalizeSource13, blankRawSource, resolveRate13, jsOrS, jsNeFalse]
  · have := h.2.1 (normalizeSource13
      { blankRawSource with rate_static := some (1/5), invert_cost := some true }) rfl rfl
    rw [this]
    norm_num [normalizeSource13, blankRawSource, resolveRate13, jsOrS, jsNeFalse]
  · have := h.2.2.2 (normalizeSource10 { blankRawSource with rate_static := some (1/5) }) rfl rfl
    rw [this]
    norm_num [normalizeSource10, blankRawSource, resolveRate10, jsOrS, jsOrNullS, jsNeFalse]
  · have := h.2.2.2 (normalizeSource10
      { blankRawSource with rate_static := some (1/5), invert_cost := some true }) rfl rfl
    rw [this]
    norm_num [normalizeSource10, blankRawSource, resolveRate10, jsOrS, jsOrNullS, jsNeFalse]

theorem evalFormula_vr5 : evalFormula "value * rate + 5" 10 (1/5) = .ok (.num 7) := by
  norm_num [evalFormula,
    (by decide : parseFormula "value * rate + 5" =
      .ok (.add (.mul .value .rate) (.lit [5] []))),
    evalExpr, qOfParts, natOfDigits, jmul, jadd]

/-- Claim C2 (amended): in the 1.3.0 implementation the rate is resolved
in the claimed order — a numerically-parsing rate-entity state wins,
else a numeric `rate_static`, else `0` — and a configured rate entity
with a non-numeric state still yields a computed cost (with the
`rate_static` fallback) plus a non-fatal row warning.  In the cited
1.0.0 implementation, however, an existing rate entity with a
non-numeric state yields rate `0` and `rate_static` is never consulted. -/
theorem claim_C2_rate_order (src : Source) (states : States) :
    (∀ st r, src.rate_entity ≠ "" → List.lookup src.rate_entity states = some st →
      parseFloatQ st = some r → resolveRate13 src states = r) ∧
    (∀ st rs, List.lookup src.rate_entity states = some st → parseFloatQ st = none →
      src.rate_static = some rs → resolveRate13 src states = rs) ∧
    (∀ st, List.lookup src.rate_entity states = some st → parseFloatQ st = none →
      src.rate_static = none → resolveRate13 src states = 0) ∧
    (∀ (value : ℚ) st rs, src.show_cost = true → src.cost_formula = "" →
      src.invert_cost = false → src.rate_entity ≠ "" →
      List.lookup src.rate_entity states = some st → parseFloatQ st = none →
      src.rate_static = some rs →
      calculateCost13 src value states = some (.num (value * rs)) ∧
      (rateWarning13 src states).isSome = true) ∧
    (∀ (src10 : Source10) (re st : String), src10.rate_entity = some re →
      List.lookup re states = some st → parseFloatQ st = none →
      resolveRate10 src10 states = 0) := by
  refine ⟨fun st r hne hlk hp => ?_, fun st rs hlk hp hrs => ?_, fun st hlk hp hrs => ?_,
          fun value st rs hsc hf hi hne hlk hp hrs => ⟨?_, ?_⟩,
          fun src10 re st hre hlk hp => ?_⟩
  · simp [resolveRate13, hne, hlk, hp]
  · by_cases hne : src.rate_entity = ""
    · simp [resolveRate13, hne, hrs]
    · simp [resolveRate13, hne, hlk, hp, hrs]
  · by_cases hne : src.rate_entity = ""
    · simp [resolveRate13, hne, hrs]
    · simp [resolveRate13, hne, hlk, hp, hrs]
  · have hrate : resolveRate13 src states = rs := by
      simp [resolveRate13, hne, hlk, hp, hrs]
    simp [calculateCost13, hsc, hf, hi, hrate]
  · simp [rateWarning13, hsc, hne, hlk, hp]
  · simp [resolveRate10, hre, hlk, hp, jsOrQ]

/-- Witness for C2: state `"0.25"` on the rate entity wins over the
static rate; an unparseable state falls back to the static rate and
the cost for quantity `10` at static rate `0.5` is `5`, with a warning
attached. -/
theorem claim_C2_rate_order_witness :
    resolveRate13 (normalizeSource13 { blankRawSource with
        rate_entity := some "sensor.rate", rate_static := some (1/2) })
      [("sensor.rate", "0.25")] = 1/4 ∧
    calculateCost13 (normalizeSource13 { blankRawSource with
        rate_entity := some "sensor.rate", rate_static := some (1/2) })
      10 [("sensor.rate", "unavailable")] = some (.num (10 * (1/2))) ∧
    (rateWarning13 (normalizeSource13 { blankRawSource with
        rate_entity := some "sensor.rate", rate_static := some (1/2) })
      [("sensor.rate", "unavailable")]).isSome = true := by
  have h1 := (claim_C2_rate_order (normalizeSource13 { blankRawSource with
      rate_entity := some "sensor.rate", rate_static := some (1/2) })
      [("sensor.rate", "0.25")]).1 "0.25" (1/4) (by decide) (by decide)
      (by norm_num [parseFloatQ, (by decide : parseFloatParts "0.25" = some (false, [0], [2, 5])),
            qOfParts, natOfDigits])
  have h2 := (claim_C2_rate_order (normalizeSource13 { blankRawSource with
      rate_entity := some "sensor.rate", rate_static := some (1/2) })
      [("sensor.rate", "unavailable")]).2.2.2.1 10 "unavailable" (1/2) rfl rfl rfl
      (by decide) (by decide) (by decide) rfl
  exact ⟨h1, h2.1, h2.2⟩

/-- Counterexample for C2 as stated: in the cited 1.0.0 implementation,
with rate entity state `"unavailable"` and `rate_static = 0.5`, the cost
for quantity `10` is `0` — not the `5` that the claimed fallback to
`rateStatic` would produce. -/
theorem claim_C2_counterexample :
    calculateCost10 srcC2 10 [("sensor.rate", "unavailable")] = some (.num 0) ∧
    (10 : ℚ) * (1/2) = 5 ∧ JsVal.num 0 ≠ JsVal.num 5 := by
  refine ⟨?_, by norm_num, by simp⟩
  norm_num [calculateCost10, srcC2, normalizeSource10, blankRawSource, jsOrNullS, jsOrS,
    jsNeFalse, jsFalsyQ, resolveRate10, List.lookup,
    (by decide : parseFloatQ "unavailable" = none), jsOrQ,
    (show ¬("sensor.rate" = "") from by decide),
    (show ("sensor.rate" == "sensor.rate") = true from rfl)]

/-- Claim C7: with a cost formula present, the evaluator substitutes
`value` and `rate` and evaluates the arithmetic expression —
`"value * rate + 5"` at quantity `10` and rate `0.2` gives `7.0` — and a
failing evaluation yields "not applicable" (`null`) without crashing;
a `null` cost leaves the running total and `hasAnyCost` of every other
row untouched. -/
theorem claim_C7_formula_eval (src : Source) (value : ℚ) (states : States) :
    (∀ msg, src.show_cost = true → src.cost_formula ≠ "" →
      evalFormula src.cost_formula value (resolveRate13 src states) = .error msg →
      calculateCost13 src value states = none) ∧
    evalFormula "value * rate + 5" 10 (1/5) = .ok (.num 7) ∧
    (src.show_cost = true → src.cost_formula = "value * rate + 5" →
      src.invert_cost = false → resolveRate13 src states = 1/5 →
      calculateCost13 src 10 states = some (.num 7)) ∧
    (∀ dp cdp cur data acc, calculateCost13 src (getValue13 src data) states = none →
      (rowStep13 dp cdp cur data states acc src).total = acc.total ∧
      (rowStep13 dp cdp cur data states acc src).hasAnyCost = acc.hasAnyCost) := by
  refine ⟨fun msg hsc hf he => by simp [calculateCost13, hsc, hf, he],
          evalFormula_vr5,
          fun hsc hf hi hr => ?_, fun dp cdp cur data acc hc => ?_⟩
  · have h5 : evalFormula "value * rate + 5" 10 (resolveRate13 src states) = .ok (.num 7) := by
      rw [hr]; exact evalFormula_vr5
    simp [calculateCost13, hsc, hf, hi, h5]
  · by_cases hz : src.hide_if_zero = true ∧ getValue13 src data = 0
    · simp [rowStep13, hz]
    · simp [rowStep13, hz, hc]

/-- Witness for C7: the spec's example formula yields cost `7.0` for the
concrete source, and a malformed formula yields "not applicable". -/
theorem claim_C7_formula_eval_witness :
    calculateCost13 srcC7 10 [] = some (.num 7) ∧
    calculateCost13 srcC7bad 10 [] = none := by
  constructor
  · exact (claim_C7_formula_eval srcC7 10 []).2.2.1 rfl rfl rfl
      (by simp [resolveRate13, srcC7, normalizeSource13, blankRawSource, jsOrS])
  · exact (claim_C7_formula_eval srcC7bad 10 []).1 "unexpected token" rfl (by decide)
      (by decide)

/-- Claim C9: row building produces no row for a descriptor whose
`hide_if_zero` flag is set and whose resolved quantity is exactly `0` —
removing such a descriptor from any position of the source list leaves
the entire build result unchanged — and when it is the only configured
source and no net metering is configured, the result has zero rows and
`hasAnyCost` (the spec's `totalApplicable`) is false. -/
theorem claim_C9_hide_if_zero (cfg : Config) (data : EnergyData) (states : States)
    (src : Source) (hh : src.hide_if_zero = true) (hv : getValue13 src data = 0) :
    (∀ pre post, cfg.sources = pre ++ src :: post →
      buildRows13 cfg data states =
        buildRows13 { cfg with sources := pre ++ post } data states) ∧
    (cfg.sources = [src] → cfg.net_metering = none →
      (buildRows13 cfg data states).rows = [] ∧
      (buildRows13 cfg data states).hasAnyCost = false) := by
  have hstep : ∀ acc,
      rowStep13 cfg.decimal_places cfg.cost_decimal_places cfg.currency data states acc src
        = acc := by
    intro acc
    simp [rowStep13, hh, hv]
  constructor
  · intro pre post hs
    simp [buildRows13, hs, List.foldl_append, hstep]
  · intro hs hnm
    simp [buildRows13, hs, hnm, hstep]

/-- Witness for C9: the single-source configuration `cfgC9` with no data
produces zero rows and no applicable total. -/
theorem claim_C9_hide_if_zero_witness :
    (buildRows13 cfgC9 [] []).rows = [] ∧ (buildRows13 cfgC9 [] []).hasAnyCost = false :=
  (claim_C9_hide_if_zero cfgC9 [] [] srcC9 rfl
    (by simp [getValue13, srcC9, normalizeSource13, blankRawSource, jsOrS, List.lookup, jsOrQ])).2
    rfl rfl

/-- Claim C10: in the 1.3.0 implementation, a custom cost formula that
evaluates without an error but to `NaN` produces a row whose cost is
excluded from the running total (it neither changes the total nor sets
`hasAnyCost`), and whose formatted cost string is empty; with such a
descriptor as the only source, the displayed total stays `0` and is not
applicable — a `NaN` never poisons the total. -/
theorem claim_C10_nan_formula (src : Source) (states : States) (data : EnergyData)
    (hs : src.show_cost = true) (hf : src.cost_formula ≠ "")
    (he : evalFormula src.cost_formula (getValue13 src data) (resolveRate13 src states)
      = .ok .nan) :
    calculateCost13 src (getValue13 src data) states = some .nan ∧
    (∀ cdp cur, formatCost13 cur (some JsVal.nan) cdp = "") ∧
    (∀ dp cdp cur acc,
      (rowStep13 dp cdp cur data states acc src).total = acc.total ∧
      (rowStep13 dp cdp cur data states acc src).hasAnyCost = acc.hasAnyCost) ∧
    (∀ dp cdp cur acc, src.hide_if_zero = false →
      (rowStep13 dp cdp cur data states acc src).rows
        = acc.rows ++ [rowOf13 dp cdp cur data states src] ∧
      (rowOf13 dp cdp cur data states src).costFormatted = "" ∧
      (rowOf13 dp cdp cur data states src).cost = some .nan) ∧
    (∀ cfg : Config, cfg.sources = [src] → cfg.net_metering = none →
      src.hide_if_zero = false →
      (buildRows13 cfg data states).total = .num 0 ∧
      (buildRows13 cfg data states).hasAnyCost = false) := by
  have hc : calculateCost13 src (getValue13 src data) states = some .nan := by
    rcases hi : src.invert_cost <;> simp [calculateCost13, hs, hf, he, hi, jneg]
  refine ⟨hc, fun cdp cur => rfl, fun dp cdp cur acc => ?_,
          fun dp cdp cur acc hhz => ?_, fun cfg hs1 hnm hhz => ?_⟩
  · by_cases hz : src.hide_if_zero = true ∧ getValue13 src data = 0
    · exact ⟨by simp [rowStep13, hz], by simp [rowStep13, hz]⟩
    · exact ⟨by simp [rowStep13, hz, hc], by simp [rowStep13, hz, hc]⟩
  · refine ⟨by simp [rowStep13, hhz], by simp [rowOf13, hc, formatCost13], by simp [rowOf13, hc]⟩
  · constructor <;> simp [buildRows13, hs1, hnm, rowStep13, hhz, hc]

/-- Witness for C10: the formula `0/0` yields a `NaN` cost whose
formatted string is empty and which leaves the single-source total `0`
and not applicable. -/
theorem claim_C10_nan_formula_witness :
    calculateCost13 srcC10 (getValue13 srcC10 []) [] = some .nan ∧
    (buildRows13 cfgC10 [] []).total = .num 0 ∧
    (buildRows13 cfgC10 [] []).hasAnyCost = false ∧
    formatCost13 "$" (some JsVal.nan) 2 = "" := by
  have he : evalFormula "0/0" (getValue13 srcC10 []) (resolveRate13 srcC10 []) = .ok .nan := by
    norm_num [evalFormula,
      (by decide : parseFormula "0/0" = .ok (.div (.lit [0] []) (.lit [0] []))),
      evalExpr, qOfParts, natOfDigits, jdiv]
  have h := claim_C10_nan_formula srcC10 [] [] rfl (by decide) he
  exact ⟨h.1, (h.2.2.2.2 cfgC10 rfl rfl rfl).1, (h.2.2.2.2 cfgC10 rfl rfl rfl).2, h.2.1 2 "$"⟩

end EnergyCard
